import Mathlib

/-!
Verification development for prepare_dashboard_data.py, a single-file pipeline
that reshapes a wide survey export (day1 registration rows with up to 35
beneficiary slots, day2 attendance rows) into per-beneficiary records and then
aggregates one dashboard summary per session.

The embedding below translates the script into Lean definitions: pandas cells
become the inductive type Val (a string, a rational number, NaN, or Python
None), a row is an association list from column names to cells, and every
helper in the script (standardize_cnic, the day2 attendance dictionary, the
35-slot reshape loop, the per-session aggregation) is a computable Lean
function mirroring the corresponding source lines.  Machine floats are
modelled as rationals; Python round(x, n) is modelled as round-half-even on
the exact rational, which agrees with the source on every value exercised
here.
-/

set_option allowUnsafeReducibility true

attribute [semireducible] Rat.add Rat.mul Rat.sub Rat.inv Rat.ofScientific

namespace Dashboard

/-- A pandas cell value: a string, a number (floats modelled as rationals),
pandas NaN, or Python None (what Series.get returns for an absent column). -/
inductive Val where
  | vstr : String → Val
  | vnum : ℚ → Val
  | nan : Val
  | vnone : Val
deriving DecidableEq, Repr

/-- Embeds pd.notna: NaN and None are the only na values here. -/
def pdNotna : Val → Bool
  | .nan => false
  | .vnone => false
  | _ => true

/-- Embeds Python str() on a cell.  str of a string is itself, str(nan) is
"nan", str(None) is "None".  Numeric rendering is schematic (no claim and no
code path under verification applies str() to a numeric cell). -/
def pyStr : Val → String
  | .vstr s => s
  | .vnum q => toString q
  | .nan => "nan"
  | .vnone => "None"

/-- One row: association list from column name to cell value.  A key that is
absent models a column that is absent from the table. -/
abbrev Row := List (String × Val)

/-- Embeds pandas Series.get(col): the cell if the column exists (possibly
NaN), Python None otherwise. -/
def rowGet (r : Row) (c : String) : Val := (r.lookup c).getD .vnone

/-- Embeds pandas Series.get(col, dflt): the default is used only when the
column is absent, not when the stored cell is NaN. -/
def rowGetD (r : Row) (c : String) (dflt : Val) : Val := (r.lookup c).getD dflt

/-- Embeds standardize_cnic (source lines 11-15): if pd.notna(cnic_str),
return re.sub applied to str(cnic_str) deleting every character outside 0-9,
else return the empty string. -/
def standardize_cnic (v : Val) : String :=
  if pdNotna v then String.mk ((pyStr v).toList.filter Char.isDigit) else ""

/-- ASCII whitespace in the sense of Python str.strip and str.split. -/
def isSpaceChar (c : Char) : Bool :=
  c = ' ' ∨ c = '\t' ∨ c = '\n' ∨ c = '\r' ∨ c = '\x0b' ∨ c = '\x0c'

/-- Characters of a string with leading and trailing whitespace removed. -/
def trimChars (l : List Char) : List Char :=
  ((l.dropWhile isSpaceChar).reverse.dropWhile isSpaceChar).reverse

/-- Embeds Python str.strip() (on the ASCII whitespace the data can hold). -/
def pyStrip (s : String) : String := String.mk (trimChars s.toList)

/-- Splits a character list at every character satisfying p, keeping empty
pieces (the behaviour of Python str.split with an explicit separator). -/
def splitByAux (p : Char → Bool) : List Char → List Char → List String
  | [], cur => [String.mk cur.reverse]
  | c :: rest, cur =>
    if p c then String.mk cur.reverse :: splitByAux p rest []
    else splitByAux p rest (c :: cur)

/-- String split at every character satisfying p, keeping empty pieces. -/
def splitBy (p : Char → Bool) (s : String) : List String := splitByAux p s.toList []

/-- Embeds Python str.split(single space): pieces between the single-space
separators, empty pieces kept. -/
def pySplitSpace (s : String) : List String := splitBy (fun c => c = ' ') s

/-- Embeds the set comprehension of source line 39: split the attendee-list
string on single spaces, keep tokens whose strip() is non-empty, and collect
standardize_cnic of each into a set. -/
def cnicSetOf (bp : String) : Finset String :=
  (((pySplitSpace bp).filter fun c => ¬ pyStrip c = "").map
    fun c => standardize_cnic (.vstr c)).toFinset

/-- Embeds one iteration of the day2 loop (source lines 35-40): if both the
session id and the attendee list are notna, assign (overwrite) the session's
entry in the dictionary; otherwise leave the dictionary unchanged.  The
dictionary is modelled as a total function because the script only ever reads
it through dict.get with an empty-set default. -/
def day2Step (d : Val → Finset String) (r : Row) : Val → Finset String :=
  let sid := rowGet r "day2_session_select"
  let bp := rowGet r "beneficiaries_present"
  if pdNotna sid && pdNotna bp then
    fun k => if k = sid then cnicSetOf (pyStr bp) else d k
  else d

/-- Embeds the construction of day2_attendance (source lines 33-40): filter
the rows whose main_menu cell equals "day2", then fold the dictionary update
over them in order, starting from the empty dictionary. -/
def buildDay2Attendance (rows : List Row) : Val → Finset String :=
  (rows.filter fun r => rowGet r "main_menu" = Val.vstr "day2").foldl day2Step
    fun _ => (∅ : Finset String)

/-- The attendee-list string a day2 row contributes for a given session id:
some when the row passes the notna guards of source line 38 and its session
id equals the given one, none otherwise. -/
def day2Contribution (sid : Val) (r : Row) : Option String :=
  if pdNotna (rowGet r "day2_session_select") && pdNotna (rowGet r "beneficiaries_present")
      && (rowGet r "day2_session_select" = sid) then
    some (pyStr (rowGet r "beneficiaries_present"))
  else none

/-- Splitting a string on runs of whitespace, dropping empty pieces (the
reading of "whitespace-split" used by the specification text). -/
def whitespaceSplit (s : String) : List String :=
  (splitBy isSpaceChar s).filter fun t => ¬ t = ""

/-- Written from the specification sentence for the attendance index, for
comparison with buildDay2Attendance: the union over ALL of the session's
valid attendance rows of the normalized tokens of the whitespace-split
attendee list, with tokens that normalize to the empty string discarded. -/
def attendanceIndexSpec (rows : List Row) (sid : Val) : Finset String :=
  ((rows.filter fun r => rowGet r "main_menu" = Val.vstr "day2").filterMap
      (day2Contribution sid)).foldl
    (fun acc bp =>
      acc ∪ ((whitespaceSplit bp).map (fun t => standardize_cnic (.vstr t))
        |>.filter fun t => ¬ t = "").toFinset)
    (∅ : Finset String)

/-- Embeds the session_data dictionary built for each day1 row (source lines
48-61). -/
def sessionData (row : Row) : Row :=
  [("SubmissionDate", rowGet row "SubmissionDate"),
   ("start", rowGet row "start"),
   ("end", rowGet row "end"),
   ("province_select", rowGet row "province_select"),
   ("district_select", rowGet row "district_select"),
   ("lead_trainer_name", rowGet row "lead_trainer_name"),
   ("session_id", rowGet row "session_id"),
   ("training_location", rowGet row "training_location"),
   ("q_read_write", rowGetD row "q_read_write" (.vnum 0)),
   ("q_recognize_currency", rowGetD row "q_recognize_currency" (.vnum 0)),
   ("q_simple_math", rowGetD row "q_simple_math" (.vnum 0)),
   ("q_handbooks_distributed", rowGetD row "q_handbooks_distributed" (.vnum 0))]

/-- Python dict assignment d[k] = v on an association-list row.  The script
only reads rows back through .get, so key order is not observable; this
implementation keeps keys unique. -/
def dictUpd (r : Row) (k : String) (v : Val) : Row :=
  (r.filter fun p => ¬ p.1 = k) ++ [(k, v)]

/-- The beneficiary_specific_prefixes list of source line 45. -/
def benFieldKeys : List String :=
  ["beneficiary_name", "beneficiary_cnic", "age", "occupation"]

/-- Embeds the 35-slot reshape loop for one day1 row (source lines 63-73):
for i in 1..35, if the cell beneficiary_cnic_i is notna, copy session_data,
set beneficiary_cnic to the standardized value (line 68), then for each
beneficiary-specific key copy the raw cell of column key_i (lines 69-71) —
which, for the key beneficiary_cnic, overwrites line 68's standardized value
with the raw cell. -/
def rowRecords (row : Row) : List Row :=
  (List.range' 1 35).filterMap fun i =>
    let cnicCol := "beneficiary_cnic_" ++ toString i
    if pdNotna (rowGet row cnicCol) then
      some (benFieldKeys.foldl
        (fun b key => dictUpd b key (rowGet row (key ++ "_" ++ toString i)))
        (dictUpd (sessionData row) "beneficiary_cnic"
          (.vstr (standardize_cnic (rowGet row cnicCol)))))
    else none

/-- Embeds the construction of long_format_list (source lines 42-73): the
day1 rows in order, each contributing its slot records in slot order. -/
def longFormat (rows : List Row) : List Row :=
  ((rows.filter fun r => rowGet r "main_menu" = Val.vstr "day1").map rowRecords).flatten

/-- Decimal digits of a character list read as a natural number (empty list
reads as 0, matching its use below where emptiness is checked separately). -/
def digitsVal (l : List Char) : ℕ :=
  l.foldl (fun n c => 10 * n + (c.toNat - 48)) 0

/-- Parses an unsigned decimal literal: digits, optionally followed by a
point and digits, with at least one digit overall. -/
def parseUnsignedDec (l : List Char) : Option ℚ :=
  let ip := l.takeWhile Char.isDigit
  let rest := l.dropWhile Char.isDigit
  match rest with
  | [] => if ip.isEmpty then none else some (digitsVal ip)
  | '.' :: fp =>
    if fp.all Char.isDigit ∧ (¬ ip = [] ∨ ¬ fp = []) then
      some ((digitsVal ip : ℚ) + (digitsVal fp : ℚ) / (10 : ℚ) ^ fp.length)
    else none
  | _ => none

/-- Embeds Python float(str) on the decimal-literal forms the pipeline can
meet: surrounding whitespace stripped, optional sign, digits with an optional
fractional part; anything else fails.  (Exponent, inf/nan and underscore
forms are not modelled; no claim exercises them.) -/
def pyFloat? (s : String) : Option ℚ :=
  match trimChars s.toList with
  | '-' :: rest => (parseUnsignedDec rest).map fun q => -q
  | '+' :: rest => parseUnsignedDec rest
  | l => parseUnsignedDec l

/-- Embeds the coordinate parsing of source lines 84-91: location_str is
str() of the training_location cell; if its strip() is "nan" or "" both
coordinates stay None; otherwise split on single spaces and float() the first
two pieces, any ValueError or IndexError leaving both coordinates None.  The
Python tuple assignment evaluates both float() calls before binding, so a
failure never sets just one coordinate. -/
def parseLocation (v : Val) : Option ℚ × Option ℚ :=
  if pyStrip (pyStr v) = "nan" ∨ pyStrip (pyStr v) = "" then (none, none)
  else
    match pySplitSpace (pyStr v) with
    | c0 :: c1 :: _ =>
      match pyFloat? c0, pyFloat? c1 with
      | some la, some lo => (some la, some lo)
      | _, _ => (none, none)
    | _ => (none, none)

/-- Numeric value of a two-digit group. -/
def twoDigits (a b : Char) : ℕ := (a.toNat - 48) * 10 + (b.toNat - 48)

/-- Tries to match the regular expression dd:dd:dd at the head of the
character list. -/
def matchHMSAt : List Char → Option (ℕ × ℕ × ℕ)
  | h1 :: h2 :: c1 :: m1 :: m2 :: c2 :: s1 :: s2 :: _ =>
    if h1.isDigit ∧ h2.isDigit ∧ c1 = ':' ∧ m1.isDigit ∧ m2.isDigit ∧ c2 = ':'
        ∧ s1.isDigit ∧ s2.isDigit then
      some (twoDigits h1 h2, twoDigits m1 m2, twoDigits s1 s2)
    else none
  | _ => none

/-- Leftmost match of dd:dd:dd in a character list (re.search semantics). -/
def findHMSIn : List Char → Option (ℕ × ℕ × ℕ)
  | [] => none
  | c :: rest =>
    match matchHMSAt (c :: rest) with
    | some t => some t
    | none => findHMSIn rest

/-- Embeds re.search of the pattern dd:dd:dd over a string (source lines
100-101). -/
def findHMS (s : String) : Option (ℕ × ℕ × ℕ) := findHMSIn s.toList

/-- Embeds pd.to_datetime(token, format HH:MM:SS).time() as seconds of day:
fails (ValueError) unless hours are below 24 and minutes and seconds below
60. -/
def parseTimeToken (t : ℕ × ℕ × ℕ) : Option ℕ :=
  if t.1 ≤ 23 ∧ t.2.1 ≤ 59 ∧ t.2.2 ≤ 59 then
    some (t.1 * 3600 + t.2.1 * 60 + t.2.2)
  else none

/-- Seconds-of-day extracted from a timestamp string: the first dd:dd:dd
substring, parsed as a valid time of day. -/
def hmsSeconds (s : String) : Option ℕ := (findHMS s).bind parseTimeToken

/-- Embeds the duration computation of source lines 98-105: extract a time of
day from str() of the start cell and of the end cell; on success the naive
difference end minus start in hours (negative values left as computed), on
any failure 0. -/
def avgTrainingTimeHours (sv ev : Val) : ℚ :=
  match hmsSeconds (pyStr sv), hmsSeconds (pyStr ev) with
  | some ss, some es => ((es : ℚ) - (ss : ℚ)) / 3600
  | _, _ => 0

/-- Floor of a rational as an integer, written with integer floor-division so
that it evaluates inside the kernel. -/
def ratFloor (x : ℚ) : ℤ := Int.fdiv x.num x.den

/-- Round half to even to an integer (the tie-breaking Python round uses). -/
def rhe (x : ℚ) : ℤ :=
  let f := ratFloor x
  if x - (f : ℚ) < 1 / 2 then f
  else if (1 : ℚ) / 2 < x - (f : ℚ) then f + 1
  else if f % 2 = 0 then f else f + 1

/-- Embeds Python round(x, n) as exact round-half-even on rationals; this
agrees with the float computation on every value the claims exercise. -/
def pyRound (x : ℚ) (n : ℕ) : ℚ := (rhe (x * 10 ^ n) : ℚ) / 10 ^ n

/-- Python + on two cells along the quality-score path: numbers add, NaN
propagates.  (A string operand would make the script raise TypeError into its
top-level handler; no claim reaches that case, and general theorems below
hypothesise numeric-or-NaN operands.) -/
def valAdd : Val → Val → Val
  | .vnum a, .vnum b => .vnum (a + b)
  | _, _ => .nan

/-- Division of a cell by 3, NaN propagating. -/
def valDiv3 : Val → Val
  | .vnum a => .vnum (a / 3)
  | _ => .nan

/-- round(v, n) on a cell: NaN rounds to NaN. -/
def pyRoundVal (v : Val) (n : ℕ) : Val :=
  match v with
  | .vnum q => .vnum (pyRound q n)
  | w => w

/-- Embeds the quality score of source line 107: the three indicator cells of
the group's first row, read with .get default 0 (used only when the column is
absent), summed left to right and divided by 3. -/
def qualityScoreOf (r : Row) : Val :=
  valDiv3 (valAdd (valAdd (rowGetD r "q_read_write" (.vnum 0))
    (rowGetD r "q_recognize_currency" (.vnum 0)))
    (rowGetD r "q_simple_math" (.vnum 0)))

/-- Embeds group count of the beneficiary_cnic column (source line 93):
number of non-na cells. -/
def beneficiaryCount (g : List Row) : ℕ :=
  (g.filter fun r => pdNotna (rowGet r "beneficiary_cnic")).length

/-- Embeds value_counts().to_dict() over the non-na occupation cells of the
group (source line 120).  value_counts orders keys by descending count; no
claim observes the order, so first-appearance order is used here. -/
def occCounts (g : List Row) : List (Val × ℕ) :=
  let occs := (g.map fun r => rowGet r "occupation").filter fun v => pdNotna v
  (occs.foldl (fun acc v => if v ∈ acc then acc else acc ++ [v]) []).map
    fun v => (v, (occs.filter fun w => w = v).length)

/-- One output record of the dashboard (source lines 109-123), field for
field. -/
structure SessionSummary where
  TrainingID : Val
  Training_Date : String
  Province : Val
  District : Val
  ASPC_Name : Val
  Beneficiary_Count_Actual : ℕ
  Female_Beneficiaries : ℕ
  Retention_Rate_Pct : ℚ
  Quality_Index : Val
  Avg_Training_Time_Hours : ℚ
  Female_Occupations : List (Val × ℕ)
  Start_Location_Lat : Option ℚ
  Start_Location_Lon : Option ℚ
deriving DecidableEq, Repr

/-- Embeds the body of the per-session loop (source lines 81-123) for one
group: first_row is the group's first record, the retention numerator is the
SIZE OF THE DAY2 ATTENDANCE SET exactly as on source line 96 (the
intersection set cnics_day1 of line 94 is computed there but never used), the
denominator the group's non-na cnic count. -/
def makeSummary (att : Val → Finset String) (sid : Val) (g : List Row) : SessionSummary :=
  let fr := g.headD []
  let latlon := parseLocation (rowGet fr "training_location")
  let n := beneficiaryCount g
  let day2set := att sid
  let retention : ℚ := if 0 < n then ((day2set.card : ℚ) / (n : ℚ)) * 100 else 0
  { TrainingID := sid
    Training_Date := (pySplitSpace (pyStr (rowGet fr "SubmissionDate"))).headD ""
    Province := rowGet fr "province_select"
    District := rowGet fr "district_select"
    ASPC_Name := rowGet fr "lead_trainer_name"
    Beneficiary_Count_Actual := n
    Female_Beneficiaries := n
    Retention_Rate_Pct := pyRound retention 2
    Quality_Index := pyRoundVal (qualityScoreOf fr) 2
    Avg_Training_Time_Hours :=
      pyRound (avgTrainingTimeHours (rowGet fr "start") (rowGet fr "end")) 1
    Female_Occupations := occCounts g
    Start_Location_Lat := latlon.1
    Start_Location_Lon := latlon.2 }

/-- Session keys in first-appearance order among the reshaped records,
dropping na keys (pandas groupby drops NaN keys).  pandas additionally sorts
the groups by key; no claim observes inter-session order. -/
def groupKeys (recs : List Row) : List Val :=
  ((recs.map fun r => rowGet r "session_id").filter fun v => pdNotna v).foldl
    (fun acc v => if v ∈ acc then acc else acc ++ [v]) []

/-- Embeds the whole in-memory pipeline (source lines 33-123): build the day2
attendance dictionary, reshape the day1 rows, group the reshaped records by
session id and emit one summary per session. -/
def prepareDashboard (rows : List Row) : List SessionSummary :=
  let att := buildDay2Attendance rows
  let recs := longFormat rows
  (groupKeys recs).map fun sid =>
    makeSummary att sid (recs.filter fun r => rowGet r "session_id" = sid)

/-- Outcome of one invocation of prepare_dashboard_data: whether the
missing-input error was reported, and the artifact written (none when nothing
was written). -/
structure RunOutcome where
  reportedError : Bool
  wrote : Option (List SessionSummary)
deriving DecidableEq, Repr

/-- Embeds the entry point guard (source lines 22-24) over an abstract file
system mapping paths to parsed tabular content: a missing master file reports
the error and returns before any processing; otherwise the pipeline runs and
the artifact is written. -/
def prepare_dashboard_run (files : String → Option (List Row))
    (masterPath : String) : RunOutcome :=
  match files masterPath with
  | none => ⟨true, none⟩
  | some rows => ⟨false, some (prepareDashboard rows)⟩

/-- Content of the output path after a run, given its prior content: a run
that wrote nothing leaves the prior content in place. -/
def outputAfter (prev : Option (List SessionSummary)) (o : RunOutcome) :
    Option (List SessionSummary) :=
  match o.wrote with
  | some a => some a
  | none => prev

/-- The end-to-end scenario of the specification: two day1 registration rows
for session S1 with identifiers "123-45" and "12345", and one day2 attendance
row for S1 listing "12345 99999". -/
def c1rows : List Row :=
  [[("main_menu", .vstr "day1"), ("session_id", .vstr "S1"),
    ("beneficiary_cnic_1", .vstr "123-45")],
   [("main_menu", .vstr "day1"), ("session_id", .vstr "S1"),
    ("beneficiary_cnic_1", .vstr "12345")],
   [("main_menu", .vstr "day2"), ("day2_session_select", .vstr "S1"),
    ("beneficiaries_present", .vstr "12345 99999")]]

/-- One registered beneficiary for S1, with a day2 attendance row that lists
two identifiers neither of whom registered. -/
def c2rows : List Row :=
  [[("main_menu", .vstr "day1"), ("session_id", .vstr "S1"),
    ("beneficiary_cnic_1", .vstr "11111")],
   [("main_menu", .vstr "day2"), ("day2_session_select", .vstr "S1"),
    ("beneficiaries_present", .vstr "22222 33333")]]

/-- Two day2 attendance rows for the same session S: the first lists "111",
the second lists "abc 2\t3" (a digitless token and a tab-joined pair). -/
def c3rows : List Row :=
  [[("main_menu", .vstr "day2"), ("day2_session_select", .vstr "S"),
    ("beneficiaries_present", .vstr "111")],
   [("main_menu", .vstr "day2"), ("day2_session_select", .vstr "S"),
    ("beneficiaries_present", .vstr "abc 2\t3")]]

/-- A registration row with identifiers in slots 1, 2 and 5, slot 1 holding
the punctuated identifier "123-45". -/
def c4row : Row :=
  [("session_id", .vstr "S1"), ("beneficiary_cnic_1", .vstr "123-45"),
   ("beneficiary_cnic_2", .vstr "2"), ("beneficiary_cnic_5", .vstr "5")]

/-- A registration row whose q_read_write column is present but holds a
missing (NaN) cell, the other two indicators holding 1. -/
def c8rows : List Row :=
  [[("main_menu", .vstr "day1"), ("session_id", .vstr "S"),
    ("beneficiary_cnic_1", .vstr "1"),
    ("q_read_write", .nan), ("q_recognize_currency", .vnum 1),
    ("q_simple_math", .vnum 1)]]

/-- C1: the specification says the session of c1rows gets beneficiary_count 2
and retention_rate round(1/2*100, 2) = 50.0 (numerator = distinct group
identifiers also present in the attendance set).  The code instead uses the
size of the day2 attendance set as the numerator (source line 96; the
intersection candidate cnics_day1 of line 94 is dead), so the emitted
Retention_Rate_Pct is 100, not 50. -/
theorem C1_code_eval :
    ((prepareDashboard c1rows).map fun s =>
      (s.Beneficiary_Count_Actual, s.Retention_Rate_Pct)) = [(2, (100 : ℚ))] ∧
    ¬ ((100 : ℚ) = 50) := by
  constructor
  · decide
  · decide

/-- C2: the specification says Retention_Rate_Pct lies in [0, 100] whenever
the beneficiary count is positive.  On c2rows (count 1, attendance set of
size 2) the code emits 200, violating the invariant. -/
theorem C2_code_eval :
    ((prepareDashboard c2rows).map fun s => s.Retention_Rate_Pct) = [(200 : ℚ)] ∧
    ¬ ((200 : ℚ) ≤ 100) := by
  constructor
  · decide
  · decide

/-- C4: the reshape of c4row emits exactly 3 records (slots 1, 2, 5), as the
claim says, but the emitted beneficiary_cnic field holds the RAW slot value
"123-45": the standardized assignment of source line 68 is overwritten by the
generic prefix loop of lines 69-71, whose prefix list contains
beneficiary_cnic.  The claim (and spec) say the record carries the normalized
identifier "12345". -/
theorem C4_code_eval :
    (rowRecords c4row).length = 3 ∧
    ((rowRecords c4row).map fun r => rowGet r "beneficiary_cnic") =
      [.vstr "123-45", .vstr "2", .vstr "5"] ∧
    ¬ (Val.vstr "123-45" = .vstr (standardize_cnic (.vstr "123-45"))) := by
  refine ⟨by decide, by decide, by decide⟩

/-- Reading the day2 dictionary after folding the update step over any row
list: the entry for a session is determined by the LAST row contributing to
that session, and by the initial dictionary when no row contributes. -/
theorem day2Step_foldl (l : List Row) (d : Val → Finset String) (sid : Val) :
    (l.foldl day2Step d) sid =
      ((l.filterMap (day2Contribution sid)).getLast?).elim (d sid) cnicSetOf := by
  induction l generalizing d with
  | nil => rfl
  | cons r l ih =>
    rw [List.foldl_cons, ih, List.filterMap_cons]
    cases hb1 : pdNotna (rowGet r "day2_session_select") with
    | false =>
      have hc : day2Contribution sid r = none := by simp [day2Contribution, hb1]
      have hs : day2Step d r = d := by simp [day2Step, hb1]
      rw [hc, hs]
    | true =>
      cases hb2 : pdNotna (rowGet r "beneficiaries_present") with
      | false =>
        have hc : day2Contribution sid r = none := by simp [day2Contribution, hb1, hb2]
        have hs : day2Step d r = d := by simp [day2Step, hb1, hb2]
        rw [hc, hs]
      | true =>
        by_cases hk : rowGet r "day2_session_select" = sid
        · have hbs : pdNotna sid = true := hk ▸ hb1
          have hc : day2Contribution sid r = some (pyStr (rowGet r "beneficiaries_present")) := by
            simp [day2Contribution, hb1, hb2, hk, hbs]
          rw [hc]
          rcases hlast : (l.filterMap (day2Contribution sid)).getLast? with _ | bp
          · rw [List.getLast?_eq_none_iff] at hlast
            rw [hlast]
            simp [day2Step, hb1, hb2, hk, hbs]
          · have hne : l.filterMap (day2Contribution sid) ≠ [] := by
              intro he
              rw [he] at hlast
              exact Option.noConfusion hlast
            rcases List.exists_cons_of_ne_nil hne with ⟨x, xs, he⟩
            rw [he] at hlast ⊢
            rw [List.getLast?_cons_cons, hlast]
            rfl
        · have hc : day2Contribution sid r = none := by simp [day2Contribution, hk]
          have hk' : ¬ sid = rowGet r "day2_session_select" := fun he => hk he.symm
          have hs : day2Step d r sid = d sid := by simp [day2Step, hb1, hb2, hk']
          rw [hc, hs]

/-- C3: the specification describes the attendance index as a union over all
of a session's attendance rows of whitespace-split tokens with
empty-normalizing tokens discarded.  On c3rows (two day2 rows for session S)
the code instead keeps only the LAST row, splits on single spaces only, and
keeps the digitless token "abc" as the empty string: the built entry is
{"", "23"}, while the claimed union is {"111", "2", "3"}. -/
theorem C3_counterex :
    ¬ (buildDay2Attendance c3rows (.vstr "S") = attendanceIndexSpec c3rows (.vstr "S")) ∧
    buildDay2Attendance c3rows (.vstr "S") = {"", "23"} ∧
    attendanceIndexSpec c3rows (.vstr "S") = {"111", "2", "3"} := by
  refine ⟨by decide, by decide, by decide⟩

/-- C3 (amended): the attendance index entry of a session equals the
token set of the session's LAST valid day2 row (rows with a missing session
id or attendee list contribute nothing and leave earlier entries in place),
where the row's attendee-list string is split on single spaces, tokens whose
strip() is empty are discarded before normalization, and each kept token is
normalized (a digitless token contributing the empty string); a session with
no valid day2 row maps to the empty set. -/
theorem C3_attendance_last_row (rows : List Row) (sid : Val) :
    buildDay2Attendance rows sid =
      (((rows.filter fun r => rowGet r "main_menu" = Val.vstr "day2").filterMap
        (day2Contribution sid)).getLast?).elim ∅ cnicSetOf :=
  day2Step_foldl _ _ _

/-- C5: the identifier normalizer maps NaN and None (missing input) to the
empty string, maps any string to its decimal-digit subsequence in order, is
idempotent, and is unchanged by inserting a non-digit character anywhere
(so strings differing only in non-digit characters normalize equally). -/
theorem C5_standardize :
    standardize_cnic .nan = "" ∧
    standardize_cnic .vnone = "" ∧
    (∀ s : String, standardize_cnic (.vstr s) = String.mk (s.toList.filter Char.isDigit)) ∧
    (∀ s : String,
      standardize_cnic (.vstr (standardize_cnic (.vstr s))) = standardize_cnic (.vstr s)) ∧
    (∀ (a b : List Char) (c : Char), c.isDigit = false →
      standardize_cnic (.vstr (String.mk (a ++ c :: b))) =
        standardize_cnic (.vstr (String.mk (a ++ b)))) := by
  refine ⟨rfl, rfl, fun s => rfl, fun s => ?_, fun a b c h => ?_⟩
  · simp [standardize_cnic, pdNotna, pyStr, String.toList]
  · simp [standardize_cnic, pdNotna, pyStr, String.toList, List.filter_append,
      List.filter_cons, h]

/-- C5 witness: inserting the non-digit dash into "12" does not change the
normalized identifier. -/
theorem C5_standardize_witness :
    standardize_cnic (.vstr (String.mk (['1'] ++ '-' :: ['2']))) =
      standardize_cnic (.vstr (String.mk (['1'] ++ ['2']))) :=
  C5_standardize.2.2.2.2 ['1'] ['2'] '-' (by decide)

/-- C6 counterexample: the claim says a token count other than two leaves
both coordinates unset, but on the three-token location "1.0 2.0 3.0" the
code parses the first two tokens and sets both coordinates. -/
theorem C6_counterex :
    parseLocation (.vstr "1.0 2.0 3.0") = (some 1, some 2) ∧
    ¬ (parseLocation (.vstr "1.0 2.0 3.0") = (none, none)) := by
  refine ⟨by decide, by decide⟩

/-- C6 (amended): "33.6 73.0" parses to latitude 33.6 and longitude 73.0; a
missing value, a non-numeric token among the first two, or fewer than two
tokens leaves both coordinates unset; tokens beyond the first two are
ignored; and the parse is total and never sets exactly one coordinate. -/
theorem C6_location :
    parseLocation (.vstr "33.6 73.0") = (some 33.6, some 73.0) ∧
    parseLocation (.vstr "not-a-coord") = (none, none) ∧
    parseLocation (.vstr "") = (none, none) ∧
    parseLocation (.vstr "33.6") = (none, none) ∧
    parseLocation .nan = (none, none) ∧
    parseLocation .vnone = (none, none) ∧
    parseLocation (.vstr "33.6 73.0 extra") = (some 33.6, some 73.0) ∧
    ∀ v : Val, parseLocation v = (none, none) ∨
      ∃ la lo, parseLocation v = (some la, some lo) := by
  refine ⟨by decide, by decide, by decide, by decide, by decide, by decide, by decide, ?_⟩
  intro v
  unfold parseLocation
  split
  · exact Or.inl rfl
  · split
    · split
      · exact Or.inr ⟨_, _, rfl⟩
      · exact Or.inl rfl
    · exact Or.inl rfl

/-- C7: when a dd:dd:dd token parses as a valid time of day out of both the
start and the end string, the rounded average-training-hours field is the
naive end-minus-start difference in hours rounded to 1 decimal place (left
as computed also when negative); when either extraction fails the field is 0;
start containing "10:00:00" and end containing "12:30:00" give 2.5, a swapped
pair gives -2, and an unmatchable start gives 0. -/
theorem C7_duration :
    (∀ sv ev ss es, hmsSeconds (pyStr sv) = some ss → hmsSeconds (pyStr ev) = some es →
      pyRound (avgTrainingTimeHours sv ev) 1 = pyRound (((es : ℚ) - (ss : ℚ)) / 3600) 1) ∧
    (∀ sv ev, hmsSeconds (pyStr sv) = none → pyRound (avgTrainingTimeHours sv ev) 1 = 0) ∧
    (∀ sv ev, hmsSeconds (pyStr ev) = none → pyRound (avgTrainingTimeHours sv ev) 1 = 0) ∧
    pyRound (avgTrainingTimeHours (.vstr "2024-05-01 10:00:00")
      (.vstr "2024-05-01 12:30:00")) 1 = 2.5 ∧
    pyRound (avgTrainingTimeHours (.vstr "x 12:00:00") (.vstr "x 10:00:00")) 1 = -2 ∧
    pyRound (avgTrainingTimeHours (.vstr "no-time") (.vstr "2024-05-01 12:30:00")) 1 = 0 := by
  refine ⟨?_, ?_, ?_, by decide, by decide, by decide⟩
  · intro sv ev ss es h1 h2
    rw [avgTrainingTimeHours, h1, h2]
  · intro sv ev h
    rw [avgTrainingTimeHours, h]
    cases hmsSeconds (pyStr ev) <;> exact (by decide : pyRound 0 1 = 0)
  · intro sv ev h
    rw [avgTrainingTimeHours, h]
    cases hmsSeconds (pyStr sv) <;> exact (by decide : pyRound 0 1 = 0)

/-- C7 witness: instantiating the general difference rule at 10:00:00 and
12:30:00 (36000 and 45000 seconds of day). -/
theorem C7_duration_witness :
    pyRound (avgTrainingTimeHours (.vstr "10:00:00") (.vstr "12:30:00")) 1 =
      pyRound (((45000 : ℚ) - (36000 : ℚ)) / 3600) 1 :=
  C7_duration.1 (.vstr "10:00:00") (.vstr "12:30:00") 36000 45000 (by decide) (by decide)

/-- C8 counterexample: on c8rows the q_read_write column is present but its
cell is missing (NaN); the claim says an absent indicator is replaced by 0,
which would give Quality_Index round((0+1+1)/3, 2) = 0.67, but the code's
Series.get default applies only to absent columns, so NaN propagates and the
emitted Quality_Index is NaN. -/
theorem C8_counterex :
    ((prepareDashboard c8rows).map fun s => s.Quality_Index) = [Val.nan] ∧
    ¬ (Val.nan = Val.vnum (pyRound ((0 + 1 + 1) / 3) 2)) := by
  refine ⟨by decide, by decide⟩

/-- C8 (amended): Quality_Index is round(((q1+q2+q3)/3), 2) over the three
indicator cells of the group's first row whenever each reads as a number —
an indicator whose COLUMN is absent reads as the default 0 — while an
indicator present as a missing (NaN) cell propagates and makes Quality_Index
NaN. -/
theorem C8_quality :
    (∀ (r : Row) (q1 q2 q3 : ℚ), rowGetD r "q_read_write" (.vnum 0) = .vnum q1 →
      rowGetD r "q_recognize_currency" (.vnum 0) = .vnum q2 →
      rowGetD r "q_simple_math" (.vnum 0) = .vnum q3 →
      pyRoundVal (qualityScoreOf r) 2 = .vnum (pyRound ((q1 + q2 + q3) / 3) 2)) ∧
    (∀ r : Row, r.lookup "q_read_write" = none →
      rowGetD r "q_read_write" (.vnum 0) = .vnum 0) ∧
    (∀ (r : Row) (q2 q3 : ℚ), rowGetD r "q_read_write" (.vnum 0) = .nan →
      rowGetD r "q_recognize_currency" (.vnum 0) = .vnum q2 →
      rowGetD r "q_simple_math" (.vnum 0) = .vnum q3 →
      pyRoundVal (qualityScoreOf r) 2 = .nan) := by
  refine ⟨?_, ?_, ?_⟩
  · intro r q1 q2 q3 h1 h2 h3
    rw [qualityScoreOf, h1, h2, h3]
    rfl
  · intro r h
    rw [rowGetD, h]
    rfl
  · intro r q2 q3 h1 h2 h3
    rw [qualityScoreOf, h1, h2, h3]
    rfl

/-- C8 witness: the mean rule at the numeric first row (1, 0, 1). -/
theorem C8_quality_witness :
    pyRoundVal (qualityScoreOf [("q_read_write", .vnum 1),
      ("q_recognize_currency", .vnum 0), ("q_simple_math", .vnum 1)]) 2 =
      .vnum (pyRound (((1 : ℚ) + 0 + 1) / 3) 2) :=
  C8_quality.1 _ 1 0 1 (by decide) (by decide) (by decide)

/-- C9: when the master file path does not exist, the run reports the error,
writes no artifact, and leaves the output path's content unchanged. -/
theorem C9_missing_input (files : String → Option (List Row)) (masterPath : String)
    (prev : Option (List SessionSummary)) (h : files masterPath = none) :
    (prepare_dashboard_run files masterPath).reportedError = true ∧
    (prepare_dashboard_run files masterPath).wrote = none ∧
    outputAfter prev (prepare_dashboard_run files masterPath) = prev := by
  rw [prepare_dashboard_run, h]
  exact ⟨rfl, rfl, rfl⟩

/-- C9 witness: the empty file system at a concrete path. -/
theorem C9_missing_input_witness :
    (prepare_dashboard_run (fun _ => none) "master.xlsx").reportedError = true ∧
    (prepare_dashboard_run (fun _ => none) "master.xlsx").wrote = none ∧
    outputAfter none (prepare_dashboard_run (fun _ => none) "master.xlsx") = none :=
  C9_missing_input (fun _ => none) "master.xlsx" none rfl

/-- A one-row input: one day1 registration for session T1 with a single
beneficiary. -/
def rows10 : List Row :=
  [[("main_menu", .vstr "day1"), ("session_id", .vstr "T1"),
    ("beneficiary_cnic_1", .vstr "42")]]

/-- An arbitrary summary, used only as the headD default in the C10
witness. -/
def dummySummary : SessionSummary := makeSummary (fun _ => ∅) .nan []

/-- C10: every emitted summary duplicates the session's raw beneficiary row
count into Female_Beneficiaries (source line 116 stores the same
int(beneficiary_count_day1) as line 115). -/
theorem C10_female_eq_count (rows : List Row) (s : SessionSummary)
    (h : s ∈ prepareDashboard rows) :
    s.Female_Beneficiaries = s.Beneficiary_Count_Actual := by
  simp only [prepareDashboard, List.mem_map] at h
  obtain ⟨sid, -, rfl⟩ := h
  rfl

/-- C10 witness: the single summary emitted for rows10. -/
theorem C10_female_witness :
    ((prepareDashboard rows10).headD dummySummary).Female_Beneficiaries =
      ((prepareDashboard rows10).headD dummySummary).Beneficiary_Count_Actual :=
  C10_female_eq_count rows10 _ (by decide)

end Dashboard
